import Mathlib

/-!
Verification of the rebalancer-service engine against its specification.

The development shallowly embeds the decision-and-execution engine of the
repository: the imbalance calculator (`calculateRebalancing`), the gas guard of
`checkAndRebalance`, the persisted operation state machine with resumption
(`resumeOperation`, the tick step relation), the bridge orchestrator
(`bridgeTokens` with its quote / approval / gas-estimation / submission steps),
and the transaction monitor (`monitorTransaction`).

JavaScript numbers are modelled as exact rationals (ℚ): every arithmetic
operation the embedded code paths perform on the inputs used in the theorems
below (addition, subtraction, multiplication, division by a nonzero value,
comparison) is exact in binary64 reasoning terms only where noted; the chosen
concrete inputs keep all intermediate values well inside the range where the
rational model and the float semantics coincide, and divisions by zero are
avoided except where explicitly discussed.  Chain balances are bigints,
modelled as ℕ.  Fallible external calls (aggregator HTTP, RPC, price fetch)
are modelled as `Except String` results supplied by an environment record.
-/

/-- Direction of a rebalance transfer, as in `src/types`:
`MAINNET_TO_MANTLE` moves funds from the Ethereum wallet to the Mantle wallet,
`MANTLE_TO_MAINNET` the reverse. -/
inductive Direction where
  | MAINNET_TO_MANTLE
  | MANTLE_TO_MAINNET
deriving DecidableEq, Repr

/-- Status column of a persisted `rebalance_operations` row. -/
inductive OpStatus where
  | PENDING
  | IN_PROGRESS
  | COMPLETED
  | FAILED
deriving DecidableEq, Repr

/-- The configuration fields `calculateRebalancing` reads
(`config.ethereumTokenThreshold`, `config.mantleTokenThreshold`,
`config.ethereumTokenDecimals`, `config.mantleTokenDecimals`). -/
structure RebalanceConfig where
  ethereumTokenThreshold : ℚ
  mantleTokenThreshold : ℚ
  ethereumTokenDecimals : ℕ
  mantleTokenDecimals : ℕ
deriving DecidableEq, Repr

/-- The plan object built by `calculateRebalancing`
(RebalanceService.ts lines 187-200) before it is inserted as a PENDING row:
`direction` and `amountToMove` (the JS number whose string form becomes
`amount_to_bridge`).  The id / token address / decimals fields are determined
by `direction` and the configuration and carry no further information. -/
structure RebalancePlan where
  direction : Direction
  amountToMove : ℚ
deriving DecidableEq, Repr

/-- getPrice (src/utils/coinmarketcap.ts): any failure while fetching or
parsing the CoinMarketCap response is caught, reported to the notifier, and
the sentinel price 0 is returned instead of an error. -/
def getPrice (fetchResult : Except String ℚ) : ℚ :=
  match fetchResult with
  | .ok usdPrice => usdPrice
  | .error _ => 0

/-- calculateRebalancing (RebalanceService.ts lines 128-224), with the two
token prices (as returned by `getPrice`) passed as inputs.  `none` models the
`return null` path (no plan, nothing inserted); `some plan` models the path
that inserts a PENDING row built from `plan` and returns the operation.
The source performs no check that a price is nonzero, that the computed
amount is positive, or that it is an integer. -/
def calculateRebalancing (cfg : RebalanceConfig)
    (ethereumBalance mantleBalance ethereumPrice mantlePrice : ℚ) :
    Option RebalancePlan :=
  let ethereumBalanceUsd := ethereumBalance * ethereumPrice
  let mantleBalanceUsd := mantleBalance * mantlePrice
  let ethereumThresholdUsd := cfg.ethereumTokenThreshold * ethereumPrice
  let mantleThresholdUsd := cfg.mantleTokenThreshold * mantlePrice
  if ethereumBalanceUsd > ethereumThresholdUsd ∧
      mantleBalanceUsd > mantleThresholdUsd then
    none
  else
    let totalBalanceUSD :=
      ethereumBalanceUsd + mantleBalanceUsd -
        ethereumThresholdUsd - mantleThresholdUsd
    let imbalanceToMoveUSD := totalBalanceUSD / 2
    if ethereumThresholdUsd > mantleThresholdUsd then
      some ⟨Direction.MAINNET_TO_MANTLE,
        imbalanceToMoveUSD * 10 ^ cfg.ethereumTokenDecimals / ethereumPrice⟩
    else
      some ⟨Direction.MANTLE_TO_MAINNET,
        imbalanceToMoveUSD * 10 ^ cfg.mantleTokenDecimals / mantlePrice⟩

/-- The constant `minBalance = 0.001` of checkAndRebalance
(RebalanceService.ts line 83), as the exact rational value of the binary64
double nearest to 0.001 (= 1152921504606847 · 2⁻⁶⁰). -/
def minBalance : ℚ := 1152921504606847 / 2 ^ 60

/-- The gas guard of checkAndRebalance (RebalanceService.ts lines 95-106):
`ethGasBalance < minBalance || mantleGasBalance < minBalance`, where each gas
balance is a JS bigint (wei, modelled as ℕ) and `minBalance` a JS number.
A mixed BigInt/Number `<` in JS compares the exact mathematical values, which
is what the ℚ comparison below does.  `true` means the tick throws the
insufficient-gas error. -/
def gasGuardAborts (ethGasBalance mantleGasBalance : ℕ) : Bool :=
  decide ((ethGasBalance : ℚ) < minBalance) ||
    decide ((mantleGasBalance : ℚ) < minBalance)

/-- A persisted `rebalance_operations` row, with the columns the engine
reads and writes in decisions; audit columns (timestamps, balance
snapshots, error_message) are never read back and are omitted. -/
structure RebalanceOperation where
  id : String
  direction : Direction
  amount_to_bridge : ℚ
  status : OpStatus
  bridge_txhash : Option String
deriving DecidableEq, Repr

/-- Which sub-procedure resumeOperation (RebalanceService.ts lines 279-296)
dispatches to: `monitorOnly` re-enters monitorTransaction with the stored
hash; `execute` restarts executeRebalancing, the path that invokes the
bridge orchestrator (quote fetch, approval, transaction submission). -/
inductive ResumeAction where
  | monitorOnly (txHash : String)
  | execute
deriving DecidableEq, Repr

/-- resumeOperation: the guard `if (operation.bridge_txhash)` is JS
truthiness of the optional string column — null/undefined and the empty
string are falsy, any other string truthy. -/
def resumeOperation (op : RebalanceOperation) : ResumeAction :=
  match op.bridge_txhash with
  | some hash => if hash = "" then .execute else .monitorOnly hash
  | none => .execute

/-- A row is unfinished when its status is PENDING or IN_PROGRESS (the
`.in("status", ["PENDING", "IN_PROGRESS"])` filter of checkAndRebalance). -/
def isUnfinishedB (op : RebalanceOperation) : Bool :=
  match op.status with
  | .PENDING => true
  | .IN_PROGRESS => true
  | _ => false

/-- The ids of the persisted rows, in table order. -/
def opIds (db : List RebalanceOperation) : List String :=
  db.map RebalanceOperation.id

/-- Apply `f` to every row with the given id, as a Supabase
`.update(...).eq("id", i)` does. -/
def applyUpdate (db : List RebalanceOperation) (i : String)
    (f : RebalanceOperation → RebalanceOperation) :
    List RebalanceOperation :=
  db.map fun o => if o.id = i then f o else o

/-- Net effect of one checkAndRebalance tick (RebalanceService.ts lines
28-126) on the persisted table, including ticks cut short by a crash at any
await point.  The writes a tick can perform are:
* nothing — busy flag set, a balance-read / gas-guard / notifier error
  before any write, no plan produced, or a crash before the insert
  (`skip`);
* an unfinished row exists — the tick resumes it, and resumeOperation with
  the executeRebalancing / monitorTransaction it calls only ever
  `.update(...)` rows by that operation's id, never inserting (`resume`);
* no unfinished row exists and a plan results — calculateRebalancing
  inserts exactly one PENDING row with a fresh random UUID, after which a
  crash may strike before executeRebalancing performs any update
  (`insert`) or the new row is updated by id (`insertRun`). -/
inductive TickStep :
    List RebalanceOperation → List RebalanceOperation → Prop where
  | skip (db : List RebalanceOperation) : TickStep db db
  | resume (db : List RebalanceOperation) (i : String)
      (f : RebalanceOperation → RebalanceOperation)
      (hmem : ∃ op ∈ db, op.id = i ∧ isUnfinishedB op = true)
      (hid : ∀ o, (f o).id = o.id) :
      TickStep db (applyUpdate db i f)
  | insert (db : List RebalanceOperation) (op : RebalanceOperation)
      (hnone : db.any isUnfinishedB = false)
      (hfresh : op.id ∉ opIds db)
      (hpending : op.status = OpStatus.PENDING) :
      TickStep db (db ++ [op])
  | insertRun (db : List RebalanceOperation) (op : RebalanceOperation)
      (f : RebalanceOperation → RebalanceOperation)
      (hnone : db.any isUnfinishedB = false)
      (hfresh : op.id ∉ opIds db)
      (hpending : op.status = OpStatus.PENDING)
      (hid : ∀ o, (f o).id = o.id) :
      TickStep db (applyUpdate (db ++ [op]) op.id f)

/-- The engine's step relation: a tick of the polling loop, a process
crash, or a restart; crash and restart do not touch the persisted table
(the busy flag is in-memory only, and a restarted process re-reads the
table before acting). -/
inductive EngineStep :
    List RebalanceOperation → List RebalanceOperation → Prop where
  | tick (db db' : List RebalanceOperation) :
      TickStep db db' → EngineStep db db'
  | crash (db : List RebalanceOperation) : EngineStep db db
  | restart (db : List RebalanceOperation) : EngineStep db db

/-- Tables reachable from the empty table by engine steps. -/
inductive Reachable : List RebalanceOperation → Prop where
  | init : Reachable []
  | step (db db' : List RebalanceOperation) :
      Reachable db → EngineStep db db' → Reachable db'

/-- The persisted-store invariant: row ids are unique and at most one row
is unfinished. -/
def StoreInv (db : List RebalanceOperation) : Prop :=
  (opIds db).Nodup ∧ db.countP isUnfinishedB ≤ 1

/-- A concrete PENDING row used in witnesses. -/
def opW : RebalanceOperation :=
  { id := "op-1", direction := .MANTLE_TO_MAINNET, amount_to_bridge := 100,
    status := .PENDING, bridge_txhash := none }

/-- A concrete IN_PROGRESS row with a stored bridge hash. -/
def opWithHash : RebalanceOperation :=
  { id := "op-2", direction := .MAINNET_TO_MANTLE, amount_to_bridge := 100,
    status := .IN_PROGRESS, bridge_txhash := some "0xhash1" }

/-- A route object returned by the aggregator's quote endpoint; the field
read by the code is `toAmount` (expected output amount). -/
structure Route where
  toAmount : ℕ
deriving DecidableEq, Repr

/-- Body of `GET /quote`: a success flag and `result.routes`. -/
structure QuoteResponse where
  success : Bool
  routes : List Route
deriving DecidableEq, Repr

/-- The `approvalData` of a build-tx result: `allowanceTarget` (spender)
and `minimumApprovalAmount`. -/
structure ApprovalData where
  allowanceTarget : String
  minimumApprovalAmount : ℕ
deriving DecidableEq, Repr

/-- Body of `POST /build-tx`: a success flag and the transaction fields
read from `result`. -/
structure BuildTxResponse where
  success : Bool
  approvalData : Option ApprovalData
  txData : String
  txTarget : String
  value : ℕ
deriving DecidableEq, Repr

/-- The quote object assembled by `getBridgeQuote`
(TransactionsService.ts lines 278-289). -/
structure BridgeQuote where
  route : Route
  approvalData : Option ApprovalData
  txData : String
  txTarget : String
  value : ℕ
deriving DecidableEq, Repr

/-- getBridgeQuote (TransactionsService.ts lines 207-294), with the two HTTP
responses (which may themselves fail) as inputs.  If the quote response is
unsuccessful or its route list is empty it throws "No bridge routes
available"; if build-tx is unsuccessful it throws "Failed to build bridge
transaction"; otherwise it returns the selected first route together with
the build-tx fields. -/
def getBridgeQuote (quoteResp : Except String QuoteResponse)
    (buildResp : Except String BuildTxResponse) :
    Except String BridgeQuote := do
  let q ← quoteResp
  match q.success, q.routes with
  | true, selectedRoute :: _ =>
    let b ← buildResp
    if b.success then
      pure { route := selectedRoute, approvalData := b.approvalData,
             txData := b.txData, txTarget := b.txTarget, value := b.value }
    else
      throw "Failed to build bridge transaction"
  | _, _ => throw "No bridge routes available"

/-- The fallback guard of bridgeTokens (TransactionsService.ts line 412) is
the JS expression `quote.route.length === 0`.  `quote.route` is the selected
route, a plain object with no `length` property, so the access yields
`undefined` and the strict comparison with 0 evaluates to `false` for every
route. -/
def routeLengthEqZero (_r : Route) : Bool := false

/-- Outcomes of every external call `bridgeTokens` can make, in source
order; stateful I/O is shallowly embedded by passing these results in.
`Except.error` models the awaited call throwing. -/
structure BridgeEnv where
  /-- `GET /quote` response of the initial `getBridgeQuote`. -/
  quoteResp : Except String QuoteResponse
  /-- `POST /build-tx` response of the initial `getBridgeQuote`. -/
  buildResp : Except String BuildTxResponse
  /-- fallback path: `getSwapQuote` on the source chain. -/
  swapQuoteResult : Except String BuildTxResponse
  /-- fallback path: `sendTransaction` of the source-chain swap. -/
  sendSwapResult : Except String String
  /-- fallback path: `waitForTransaction` of the source-chain swap. -/
  waitSwapResult : Except String Bool
  /-- fallback path: quote response of the native-asset `getBridgeQuote`. -/
  fallbackQuoteResp : Except String QuoteResponse
  /-- fallback path: build-tx response of the native-asset `getBridgeQuote`. -/
  fallbackBuildResp : Except String BuildTxResponse
  /-- fallback path: `sendTransaction` of the bridge transaction. -/
  sendBridgeResult : Except String String
  /-- fallback path: `waitForTransaction` of the bridge transaction. -/
  waitBridgeResult : Except String Bool
  /-- fallback path: `getSwapQuote` on the destination chain. -/
  finalSwapQuoteResult : Except String BuildTxResponse
  /-- fallback path: `sendTransaction` of the destination-chain swap. -/
  sendFinalSwapResult : Except String String
  /-- fallback path: `waitForTransaction` of the destination-chain swap. -/
  waitFinalSwapResult : Except String Bool
  /-- direct path: `checkAllowance` result. -/
  allowanceResult : Except String ℕ
  /-- direct path: `approveToken` result. -/
  approveResult : Except String String
  /-- direct path: `waitForTransaction` of the approval. -/
  waitApprovalResult : Except String Bool
  /-- direct path: quote response of the re-fetched `getBridgeQuote`. -/
  requoteResp : Except String QuoteResponse
  /-- direct path: build-tx response of the re-fetched `getBridgeQuote`. -/
  requoteBuildResp : Except String BuildTxResponse
  /-- direct path: `estimateGas` result. -/
  estimateGasResult : Except String ℕ
  /-- direct path: `sendTransaction` of the bridge transaction. -/
  sendTxResult : Except String String

/-- The approval block of the direct-route branch of bridgeTokens
(TransactionsService.ts lines 492-520): if the quote carries approval data,
read the current allowance and, only when it is below the required minimum,
submit an approval and wait for it; all failures here propagate. -/
def handleApproval (env : BridgeEnv) (quote : BridgeQuote) :
    Except String Unit := do
  match quote.approvalData with
  | some approvalData =>
    let currentAllowance ← env.allowanceResult
    if currentAllowance < approvalData.minimumApprovalAmount then do
      let _approvalHash ← env.approveResult
      let _confirmed ← env.waitApprovalResult
      pure ()
    else
      pure ()
  | none => pure ()

/-- The tail of the direct-route branch of bridgeTokens
(TransactionsService.ts lines 522-575): re-fetch the quote (failures
propagate), then — inside the inner try/catch whose rethrow is commented out
("TODO: remove this") — estimate gas and send; a failure of either is caught
and the literal string "0x" is returned as if it were the submitted
transaction hash. -/
def directBridgeSubmit (env : BridgeEnv) : Except String String := do
  let _requote ← getBridgeQuote env.requoteResp env.requoteBuildResp
  match env.estimateGasResult with
  | .error _ => pure "0x"
  | .ok _estimatedGas =>
    match env.sendTxResult with
    | .error _ => pure "0x"
    | .ok hash => pure hash

/-- bridgeTokens (TransactionsService.ts lines 370-581): get the initial
quote (an empty route set makes `getBridgeQuote` itself throw); if the dead
fallback guard were true, run the three-step swap → bridge → swap path, each
step awaited before the next; otherwise handle approval, re-quote, estimate
gas and submit. -/
def bridgeTokens (env : BridgeEnv) : Except String String := do
  let quote ← getBridgeQuote env.quoteResp env.buildResp
  if routeLengthEqZero quote.route then do
    let _swapQuote ← env.swapQuoteResult
    let _swapHash ← env.sendSwapResult
    let _swapConfirmed ← env.waitSwapResult
    let _bridgeQuote ← getBridgeQuote env.fallbackQuoteResp env.fallbackBuildResp
    let _bridgeHash ← env.sendBridgeResult
    let _bridgeConfirmed ← env.waitBridgeResult
    let _finalSwapQuote ← env.finalSwapQuoteResult
    let finalSwapHash ← env.sendFinalSwapResult
    let _finalConfirmed ← env.waitFinalSwapResult
    pure finalSwapHash
  else do
    let _approved ← handleApproval env quote
    directBridgeSubmit env

/-- Configuration used for the concrete scenarios: both thresholds 200 tokens,
both tokens with 6 decimals. -/
def cfgScenario : RebalanceConfig :=
  { ethereumTokenThreshold := 200
    mantleTokenThreshold := 200
    ethereumTokenDecimals := 6
    mantleTokenDecimals := 6 }

/-- Configuration with distinct thresholds (ethereum 300, mantle 100),
used to witness the donor-direction rule. -/
def cfgDonor : RebalanceConfig :=
  { ethereumTokenThreshold := 300
    mantleTokenThreshold := 100
    ethereumTokenDecimals := 6
    mantleTokenDecimals := 6 }

/-- A bridge environment in which every external call succeeds; the
scenarios below override single fields. -/
def envAllOk : BridgeEnv :=
  { quoteResp := .ok ⟨true, [⟨1000000⟩]⟩
    buildResp := .ok ⟨true, none, "0xdata", "0xtarget", 0⟩
    swapQuoteResult := .ok ⟨true, none, "0xswapdata", "0xswaptarget", 0⟩
    sendSwapResult := .ok "0xswaphash"
    waitSwapResult := .ok true
    fallbackQuoteResp := .ok ⟨true, [⟨1000000⟩]⟩
    fallbackBuildResp := .ok ⟨true, none, "0xbrdata", "0xbrtarget", 0⟩
    sendBridgeResult := .ok "0xbridgehash"
    waitBridgeResult := .ok true
    finalSwapQuoteResult := .ok ⟨true, none, "0xfindata", "0xfintarget", 0⟩
    sendFinalSwapResult := .ok "0xfinalswaphash"
    waitFinalSwapResult := .ok true
    allowanceResult := .ok 0
    approveResult := .ok "0xapprovehash"
    waitApprovalResult := .ok true
    requoteResp := .ok ⟨true, [⟨1000000⟩]⟩
    requoteBuildResp := .ok ⟨true, none, "0xdata", "0xtarget", 0⟩
    estimateGasResult := .ok 210000
    sendTxResult := .ok "0xbridgetxhash" }

/-- Environment where gas estimation throws in the direct-route branch. -/
def envGasFail : BridgeEnv :=
  { envAllOk with
    estimateGasResult := .error "Gas estimation failed: execution reverted" }

/-- Environment where sending the bridge transaction throws in the
direct-route branch. -/
def envSendFail : BridgeEnv :=
  { envAllOk with sendTxResult := .error "insufficient funds for gas" }

/-- Environment where the aggregator reports a successful response with an
empty route set. -/
def envNoRoutes : BridgeEnv :=
  { envAllOk with quoteResp := .ok ⟨true, []⟩ }

/-- Status of a bridge transfer as reported by checkBridgeStatus
(TransactionsService.ts lines 625-669): FAILED if either leg failed,
COMPLETED if both legs completed, else PENDING. -/
inductive BridgeStatus where
  | PENDING
  | COMPLETED
  | FAILED
deriving DecidableEq, Repr

/-- How a call of `monitorTransaction` ends: return on COMPLETED, the
thrown "Bridge transaction ... failed" error on a reported FAILED status, or
the distinct thrown "Transaction monitoring timed out" error when the
attempt cap is exhausted. -/
inductive MonitorOutcome where
  | success
  | bridgeFailed
  | timedOut
deriving DecidableEq, Repr

/-- Observable result of a monitoring run: its outcome, how many times
checkBridgeStatus was polled, and the total time slept between polls
(milliseconds). -/
structure MonitorRun where
  outcome : MonitorOutcome
  polls : ℕ
  totalWait : ℚ
deriving DecidableEq, Repr

/-- The hard attempt cap of monitorTransaction
(RebalanceService.ts line 303). -/
def maxAttempts : ℕ := 60

/-- Base delay before the next poll (RebalanceService.ts line 325):
`Math.min(10000 * Math.pow(1.1, attempts), 30000)` milliseconds. -/
def baseDelay (attempts : ℕ) : ℚ :=
  min (10000 * (11 / 10 : ℚ) ^ attempts) 30000

/-- The polling loop of monitorTransaction (RebalanceService.ts lines
306-335): `status n` is what checkBridgeStatus reports at the (n+1)-th poll
and `jitter n` is the random jitter (`Math.random() * 2000`) added to the
n-th sleep; `fuel` counts the remaining iterations of the
`attempts < maxAttempts` loop. -/
def monitorLoop (status : ℕ → BridgeStatus) (jitter : ℕ → ℚ) :
    ℕ → ℕ → ℚ → MonitorRun
  | 0, attempts, waited => ⟨.timedOut, attempts, waited⟩
  | fuel + 1, attempts, waited =>
    match status attempts with
    | .COMPLETED => ⟨.success, attempts + 1, waited⟩
    | .FAILED => ⟨.bridgeFailed, attempts + 1, waited⟩
    | .PENDING =>
      monitorLoop status jitter fuel (attempts + 1)
        (waited + baseDelay attempts + jitter attempts)

/-- monitorTransaction (RebalanceService.ts lines 298-336) as a function of
the reported status sequence and the drawn jitters. -/
def monitorTransaction (status : ℕ → BridgeStatus) (jitter : ℕ → ℚ) :
    MonitorRun :=
  monitorLoop status jitter maxAttempts 0 0

/-- A finite status stimulus: positions past the end report PENDING
(never reached in the runs below). -/
def statusSeq (l : List BridgeStatus) : ℕ → BridgeStatus :=
  fun n => l.getD n .PENDING

/-- The status sequence [PENDING, PENDING, COMPLETED]. -/
def seqPPC : ℕ → BridgeStatus :=
  statusSeq [.PENDING, .PENDING, .COMPLETED]

/-- The status sequence [FAILED]. -/
def seqFail : ℕ → BridgeStatus := statusSeq [.FAILED]

/-- Any natural number of wei is below the double 0.001 exactly when it is 0. -/
lemma natCast_lt_minBalance_iff (n : ℕ) : ((n : ℚ) < minBalance) ↔ n = 0 := by
  constructor
  · intro h
    by_contra hn
    have h1 : (1 : ℚ) ≤ (n : ℚ) := by
      exact_mod_cast Nat.one_le_iff_ne_zero.mpr hn
    have hlt : minBalance < 1 := by norm_num [minBalance]
    linarith
  · rintro rfl
    norm_num [minBalance]

/-- C8: for every balance pair where each chain's balance in USD strictly
exceeds its own threshold in USD, `calculateRebalancing` returns no plan
(`null`), so no operation row is created.  The scenario
balances 250/250 USD against thresholds 200/200 USD is the witness. -/
theorem calc_none_above_thresholds (cfg : RebalanceConfig) (eb mb ep mp : ℚ)
    (he : eb * ep > cfg.ethereumTokenThreshold * ep)
    (hm : mb * mp > cfg.mantleTokenThreshold * mp) :
    calculateRebalancing cfg eb mb ep mp = none := by
  simp only [calculateRebalancing]
  rw [if_pos ⟨he, hm⟩]

/-- Witness for C8: balances worth 250 USD on each chain against
200/200 USD thresholds (unit prices) produce no plan. -/
theorem calc_none_above_thresholds_witness :
    calculateRebalancing cfgScenario 250 250 1 1 = none :=
  calc_none_above_thresholds cfgScenario 250 250 1 1
    (by norm_num [cfgScenario]) (by norm_num [cfgScenario])

/-- C7: whenever `calculateRebalancing` produces a plan, the donor (source)
chain is the one whose configured threshold converted to USD is strictly
larger; and in the concrete scenario — chain A (mantle) balance worth
500 USD, chain B (ethereum) balance worth 100 USD, both thresholds worth
200 USD, unit prices, 6 decimals — a plan exists with direction A→B
(MANTLE_TO_MAINNET) and amount (500+100−200−200)/2 = 100 USD, i.e.
100·10⁶ smallest units on chain A. -/
theorem donor_direction :
    (∀ (cfg : RebalanceConfig) (eb mb ep mp : ℚ) (plan : RebalancePlan),
      calculateRebalancing cfg eb mb ep mp = some plan →
      (cfg.ethereumTokenThreshold * ep > cfg.mantleTokenThreshold * mp →
        plan.direction = Direction.MAINNET_TO_MANTLE) ∧
      (cfg.mantleTokenThreshold * mp > cfg.ethereumTokenThreshold * ep →
        plan.direction = Direction.MANTLE_TO_MAINNET)) ∧
    calculateRebalancing cfgScenario 100 500 1 1 =
      some ⟨Direction.MANTLE_TO_MAINNET, 100000000⟩ := by
  constructor
  · intro cfg eb mb ep mp plan h
    simp only [calculateRebalancing] at h
    split_ifs at h with h1 h2
    · rw [Option.some.injEq] at h
      subst h
      exact ⟨fun _ => rfl, fun hc => absurd hc (lt_asymm h2)⟩
    · rw [Option.some.injEq] at h
      subst h
      exact ⟨fun hc => absurd hc h2, fun _ => rfl⟩
  · norm_num [calculateRebalancing, cfgScenario]

/-- Witness for C7: with ethereum threshold worth 300 USD against mantle's
100 USD, the produced plan's donor is the ethereum (larger-threshold) side. -/
theorem donor_direction_witness :
    RebalancePlan.direction ⟨Direction.MAINNET_TO_MANTLE, -200000000⟩ =
      Direction.MAINNET_TO_MANTLE :=
  (donor_direction.1 cfgDonor 0 0 1 1
      ⟨Direction.MAINNET_TO_MANTLE, -200000000⟩
      (by norm_num [calculateRebalancing, cfgDonor])).1
    (by norm_num [cfgDonor])

/-- C1 (code evaluation): when the price oracle fails, `getPrice` returns the
sentinel price 0, and `calculateRebalancing` performs no zero-price check: at
ethereum price 0 (oracle failure), mantle price 1, balances 100/100 and
thresholds 200/200 it still produces a plan — a PENDING row is inserted
(here with amount −50·10⁶) — instead of aborting with a recoverable error. -/
theorem zero_price_still_produces_plan :
    getPrice (Except.error "price fetch failed") = 0 ∧
    calculateRebalancing cfgScenario 100 100
        (getPrice (Except.error "price fetch failed")) 1 =
      some ⟨Direction.MANTLE_TO_MAINNET, -50000000⟩ := by
  refine ⟨rfl, ?_⟩
  norm_num [calculateRebalancing, cfgScenario, getPrice]

/-- C3 (code evaluation): with both chains below threshold (balances 100/100,
thresholds 200/200, unit prices, 6 decimals) the computed surplus is negative
and `calculateRebalancing` still returns a plan with the strictly negative
amount −100·10⁶; no non-positive/NaN guard discards it, so the row is
inserted and execution is attempted. -/
theorem negative_amount_plan_not_discarded :
    calculateRebalancing cfgScenario 100 100 1 1 =
      some ⟨Direction.MANTLE_TO_MAINNET, -100000000⟩ ∧
    (RebalancePlan.amountToMove ⟨Direction.MANTLE_TO_MAINNET, -100000000⟩ < 0) := by
  constructor
  · norm_num [calculateRebalancing, cfgScenario]
  · norm_num

/-- C10: the gas guard compares each wallet's native balance, a bigint in
wei, against the JS number 0.001; since the comparison is over the exact
mathematical values and 0 < 0.001 < 1, the tick aborts with the
insufficient-gas error exactly when at least one native balance is 0 wei. -/
theorem gas_guard_aborts_iff_zero_wei (e m : ℕ) :
    gasGuardAborts e m = true ↔ (e = 0 ∨ m = 0) := by
  simp only [gasGuardAborts, Bool.or_eq_true, decide_eq_true_eq,
    natCast_lt_minBalance_iff]

/-- C2 (code evaluation): in the direct-route branch a gas-estimation or
send failure does not propagate — the inner catch (whose rethrow is
commented out with "TODO: remove this") makes `bridgeTokens` return
`ok "0x"` as if a transaction had been submitted, so the caller never sees
the error and the operation is not transitioned to FAILED with it. -/
theorem bridge_swallows_gas_and_send_failures :
    bridgeTokens envGasFail = Except.ok "0x" ∧
    bridgeTokens envSendFail = Except.ok "0x" :=
  ⟨rfl, rfl⟩

/-- C4 (code evaluation): when the aggregator reports no viable direct route
(an empty route set from the quote step), `getBridgeQuote` throws and
`bridgeTokens` propagates the error instead of falling back; every fallback
step succeeds in this environment, so a taken swap-bridge-swap path would
have returned `ok "0xfinalswaphash"`. -/
theorem bridge_empty_routes_error_no_fallback :
    bridgeTokens envNoRoutes = Except.error "No bridge routes available" ∧
    bridgeTokens envNoRoutes ≠ Except.ok "0xfinalswaphash" := by
  refine ⟨rfl, ?_⟩
  intro h
  rw [show bridgeTokens envNoRoutes =
        Except.error "No bridge routes available" from rfl] at h
  exact Except.noConfusion h

/-- One loop iteration on a PENDING report: sleep and poll again. -/
lemma monitorLoop_step_pending (status : ℕ → BridgeStatus) (jitter : ℕ → ℚ)
    (fuel attempts : ℕ) (waited : ℚ)
    (h : status attempts = BridgeStatus.PENDING) :
    monitorLoop status jitter (fuel + 1) attempts waited =
      monitorLoop status jitter fuel (attempts + 1)
        (waited + baseDelay attempts + jitter attempts) := by
  simp [monitorLoop, h]

/-- One loop iteration on a COMPLETED report: return success. -/
lemma monitorLoop_step_completed (status : ℕ → BridgeStatus) (jitter : ℕ → ℚ)
    (fuel attempts : ℕ) (waited : ℚ)
    (h : status attempts = BridgeStatus.COMPLETED) :
    monitorLoop status jitter (fuel + 1) attempts waited =
      ⟨.success, attempts + 1, waited⟩ := by
  simp [monitorLoop, h]

/-- One loop iteration on a FAILED report: throw the bridge-failed error. -/
lemma monitorLoop_step_failed (status : ℕ → BridgeStatus) (jitter : ℕ → ℚ)
    (fuel attempts : ℕ) (waited : ℚ)
    (h : status attempts = BridgeStatus.FAILED) :
    monitorLoop status jitter (fuel + 1) attempts waited =
      ⟨.bridgeFailed, attempts + 1, waited⟩ := by
  simp [monitorLoop, h]

/-- The loop never polls more often than its remaining fuel allows. -/
lemma monitorLoop_polls_le (status : ℕ → BridgeStatus) (jitter : ℕ → ℚ) :
    ∀ fuel attempts waited,
      (monitorLoop status jitter fuel attempts waited).polls ≤
        attempts + fuel := by
  intro fuel
  induction fuel with
  | zero => intro a w; simp [monitorLoop]
  | succ n ih =>
    intro a w
    cases h : status a with
    | COMPLETED =>
      rw [monitorLoop_step_completed status jitter n a w h]
      show a + 1 ≤ a + (n + 1)
      omega
    | FAILED =>
      rw [monitorLoop_step_failed status jitter n a w h]
      show a + 1 ≤ a + (n + 1)
      omega
    | PENDING =>
      rw [monitorLoop_step_pending status jitter n a w h]
      have hrec := ih (a + 1) (w + baseDelay a + jitter a)
      omega

/-- With PENDING reported forever, the loop exhausts its fuel and times
out after exactly one poll per unit of fuel. -/
lemma monitorLoop_all_pending (jitter : ℕ → ℚ) :
    ∀ fuel attempts waited,
      (monitorLoop (fun _ => BridgeStatus.PENDING) jitter
          fuel attempts waited).outcome = MonitorOutcome.timedOut ∧
      (monitorLoop (fun _ => BridgeStatus.PENDING) jitter
          fuel attempts waited).polls = attempts + fuel := by
  intro fuel
  induction fuel with
  | zero => intro a w; simp [monitorLoop]
  | succ n ih =>
    intro a w
    rw [monitorLoop_step_pending _ jitter n a w rfl]
    obtain ⟨h1, h2⟩ := ih (a + 1) (w + baseDelay a + jitter a)
    exact ⟨h1, by rw [h2]; omega⟩

/-- C9: fed the status sequence [PENDING, PENDING, COMPLETED], the monitor
returns success after exactly 3 polls, with total sleep within the backoff
bounds (two sleeps of 10000 and 11000 ms base plus jitters below 2000 ms
each); fed [FAILED], it fails on the first poll with no sleep; fed PENDING
forever, it exhausts the 60-attempt cap and raises the timeout outcome,
which is distinct from the bridge-failed outcome; and no status sequence
is ever polled more than 60 times. -/
theorem monitor_poll_sequences (jitter : ℕ → ℚ)
    (hj : ∀ n, 0 ≤ jitter n ∧ jitter n < 2000) :
    ((monitorTransaction seqPPC jitter).outcome = MonitorOutcome.success ∧
      (monitorTransaction seqPPC jitter).polls = 3 ∧
      21000 ≤ (monitorTransaction seqPPC jitter).totalWait ∧
      (monitorTransaction seqPPC jitter).totalWait < 25000) ∧
    ((monitorTransaction seqFail jitter).outcome =
        MonitorOutcome.bridgeFailed ∧
      (monitorTransaction seqFail jitter).polls = 1 ∧
      (monitorTransaction seqFail jitter).totalWait = 0) ∧
    ((monitorTransaction (fun _ => BridgeStatus.PENDING) jitter).outcome =
        MonitorOutcome.timedOut ∧
      (monitorTransaction (fun _ => BridgeStatus.PENDING) jitter).polls =
        maxAttempts) ∧
    MonitorOutcome.timedOut ≠ MonitorOutcome.bridgeFailed ∧
    (∀ status, (monitorTransaction status jitter).polls ≤ maxAttempts) := by
  have hb0 : baseDelay 0 = 10000 := by norm_num [baseDelay]
  have hb1 : baseDelay 1 = 11000 := by norm_num [baseDelay]
  have hppc : monitorTransaction seqPPC jitter =
      ⟨.success, 3, 0 + baseDelay 0 + jitter 0 + baseDelay 1 + jitter 1⟩ := by
    have s1 : monitorLoop seqPPC jitter 60 0 0 =
        monitorLoop seqPPC jitter 59 1 (0 + baseDelay 0 + jitter 0) :=
      monitorLoop_step_pending seqPPC jitter 59 0 0 rfl
    have s2 : monitorLoop seqPPC jitter 59 1 (0 + baseDelay 0 + jitter 0) =
        monitorLoop seqPPC jitter 58 2
          (0 + baseDelay 0 + jitter 0 + baseDelay 1 + jitter 1) :=
      monitorLoop_step_pending seqPPC jitter 58 1 _ rfl
    have s3 : monitorLoop seqPPC jitter 58 2
          (0 + baseDelay 0 + jitter 0 + baseDelay 1 + jitter 1) =
        ⟨.success, 3, 0 + baseDelay 0 + jitter 0 + baseDelay 1 + jitter 1⟩ :=
      monitorLoop_step_completed seqPPC jitter 57 2 _ rfl
    rw [monitorTransaction]
    rw [show maxAttempts = 60 from rfl, s1, s2, s3]
  have hfailed : monitorTransaction seqFail jitter =
      ⟨.bridgeFailed, 1, 0⟩ := by
    rw [monitorTransaction, show maxAttempts = 60 from rfl]
    exact monitorLoop_step_failed seqFail jitter 59 0 0 rfl
  refine ⟨?_, ?_, ?_, ?_, ?_⟩
  · rw [hppc]
    obtain ⟨hj00, hj01⟩ := hj 0
    obtain ⟨hj10, hj11⟩ := hj 1
    refine ⟨rfl, rfl, ?_, ?_⟩
    · show (21000 : ℚ) ≤ 0 + baseDelay 0 + jitter 0 + baseDelay 1 + jitter 1
      rw [hb0, hb1]; linarith
    · show (0 : ℚ) + baseDelay 0 + jitter 0 + baseDelay 1 + jitter 1 < 25000
      rw [hb0, hb1]; linarith
  · rw [hfailed]
    exact ⟨rfl, rfl, rfl⟩
  · obtain ⟨h1, h2⟩ := monitorLoop_all_pending jitter maxAttempts 0 0
    exact ⟨h1, by rw [monitorTransaction, h2]; omega⟩
  · intro h
    exact MonitorOutcome.noConfusion h
  · intro status
    have := monitorLoop_polls_le status jitter maxAttempts 0 0
    rw [monitorTransaction]
    omega

/-- Witness for C9 at the zero-jitter instance: the [PENDING, PENDING,
COMPLETED] run makes exactly 3 polls. -/
theorem monitor_poll_sequences_witness :
    (monitorTransaction seqPPC (fun _ => 0)).polls = 3 :=
  (monitor_poll_sequences (fun _ => 0) (fun _ => by norm_num)).1.2.1

/-- Updating rows in place never changes the id column. -/
lemma opIds_applyUpdate (db : List RebalanceOperation) (i : String)
    (f : RebalanceOperation → RebalanceOperation)
    (hid : ∀ o, (f o).id = o.id) :
    opIds (applyUpdate db i f) = opIds db := by
  induction db with
  | nil => rfl
  | cons a t ih =>
    simp only [applyUpdate, opIds, List.map_cons] at ih ⊢
    by_cases h : a.id = i
    · rw [if_pos h, hid, ih]
    · rw [if_neg h, ih]

/-- If every row carrying the updated id was unfinished, an in-place update
cannot increase the number of unfinished rows. -/
lemma countP_applyUpdate_le (db : List RebalanceOperation) (i : String)
    (f : RebalanceOperation → RebalanceOperation)
    (hall : ∀ o ∈ db, o.id = i → isUnfinishedB o = true) :
    (applyUpdate db i f).countP isUnfinishedB ≤
      db.countP isUnfinishedB := by
  induction db with
  | nil => simp [applyUpdate]
  | cons a t ih =>
    have iht := ih fun o ho => hall o (List.mem_cons_of_mem a ho)
    simp only [applyUpdate, List.map_cons, List.countP_cons] at iht ⊢
    by_cases h : a.id = i
    · have hpa : isUnfinishedB a = true :=
        hall a (List.mem_cons_self a t) h
      rw [if_pos h, hpa]
      simp only [eq_self_iff_true, if_true]
      have hb : (if isUnfinishedB (f a) = true then 1 else 0) ≤ 1 := by
        split <;> omega
      omega
    · rw [if_neg h]
      omega

/-- A table in which the unfinished-row query comes back empty has zero
unfinished rows. -/
lemma countP_unfinished_eq_zero (db : List RebalanceOperation)
    (h : db.any isUnfinishedB = false) :
    db.countP isUnfinishedB = 0 := by
  rw [List.countP_eq_zero]
  intro a ha
  rw [List.any_eq_false] at h
  exact h a ha

/-- One tick preserves the store invariant. -/
lemma tickStep_inv {db db' : List RebalanceOperation}
    (h : TickStep db db') (hI : StoreInv db) : StoreInv db' := by
  obtain ⟨hnd, hcnt⟩ := hI
  cases h with
  | skip => exact ⟨hnd, hcnt⟩
  | resume i f hmem hid =>
    obtain ⟨op, hop, hopid, hunf⟩ := hmem
    have hall : ∀ o ∈ db, o.id = i → isUnfinishedB o = true := by
      intro o ho hoid
      have heq : o = op :=
        List.inj_on_of_nodup_map hnd ho hop (by rw [hoid, hopid])
      rw [heq]
      exact hunf
    exact ⟨by rw [opIds_applyUpdate db i f hid]; exact hnd,
      le_trans (countP_applyUpdate_le db i f hall) hcnt⟩
  | insert op hnone hfresh hpending =>
    refine ⟨?_, ?_⟩
    · simp only [opIds, List.map_append, List.map_cons, List.map_nil]
      rw [List.nodup_append]
      exact ⟨hnd, List.nodup_singleton _, by
        intro x hx hx1
        rw [List.mem_singleton] at hx1
        subst hx1
        exact hfresh hx⟩
    · rw [List.countP_append, countP_unfinished_eq_zero db hnone]
      simp [List.countP_cons, isUnfinishedB, hpending]
  | insertRun op f hnone hfresh hpending hid =>
    have hall : ∀ o ∈ db ++ [op], o.id = op.id →
        isUnfinishedB o = true := by
      intro o ho hoid
      rcases List.mem_append.mp ho with hdb | hop
      · exact absurd (hoid ▸ List.mem_map_of_mem RebalanceOperation.id hdb)
          hfresh
      · rw [List.mem_singleton] at hop
        subst hop
        simp [isUnfinishedB, hpending]
    refine ⟨?_, ?_⟩
    · rw [opIds_applyUpdate (db ++ [op]) op.id f hid]
      simp only [opIds, List.map_append, List.map_cons, List.map_nil]
      rw [List.nodup_append]
      exact ⟨hnd, List.nodup_singleton _, by
        intro x hx hx1
        rw [List.mem_singleton] at hx1
        subst hx1
        exact hfresh hx⟩
    · refine le_trans (countP_applyUpdate_le (db ++ [op]) op.id f hall) ?_
      rw [List.countP_append, countP_unfinished_eq_zero db hnone]
      simp [List.countP_cons, isUnfinishedB, hpending]

/-- Crash and restart do not touch the table; ticks preserve the
invariant. -/
lemma engineStep_inv {db db' : List RebalanceOperation}
    (h : EngineStep db db') (hI : StoreInv db) : StoreInv db' := by
  cases h with
  | tick _ ht => exact tickStep_inv ht hI
  | crash => exact hI
  | restart => exact hI

/-- Every reachable table satisfies the store invariant. -/
lemma reachable_inv {db : List RebalanceOperation}
    (h : Reachable db) : StoreInv db := by
  induction h with
  | init => exact ⟨List.nodup_nil, by simp⟩
  | step db db' hr hs ih => exact engineStep_inv hs ih

/-- C5: in every state reachable by the engine's step relation (tick,
crash, restart) at most one persisted row has status in
{PENDING, IN_PROGRESS}; and whenever an unfinished row exists, a tick
performs no insertion — it resumes by updating existing rows in place
(same id set), so a restart after insert-but-before-submit resumes the
existing row rather than creating a new one. -/
theorem single_flight :
    (∀ db, Reachable db → db.countP isUnfinishedB ≤ 1) ∧
    (∀ db db', TickStep db db' →
      (∃ op ∈ db, isUnfinishedB op = true) → opIds db' = opIds db) := by
  constructor
  · intro db h
    exact (reachable_inv h).2
  · intro db db' hstep hex
    cases hstep with
    | skip => rfl
    | resume i f hmem hid => exact opIds_applyUpdate db i f hid
    | insert op hnone hfresh hpending =>
      obtain ⟨o, ho, hunf⟩ := hex
      rw [List.any_eq_false] at hnone
      exact absurd hunf (hnone o ho)
    | insertRun op f hnone hfresh hpending hid =>
      obtain ⟨o, ho, hunf⟩ := hex
      rw [List.any_eq_false] at hnone
      exact absurd hunf (hnone o ho)

/-- Witness for C5: the table holding exactly the freshly inserted PENDING
row is reachable and satisfies the bound, and a tick from it (here the
crash-before-any-write tick) keeps the id set unchanged. -/
theorem single_flight_witness :
    [opW].countP isUnfinishedB ≤ 1 ∧ opIds [opW] = opIds [opW] := by
  constructor
  · exact single_flight.1 [opW]
      (Reachable.step [] [opW] Reachable.init
        (EngineStep.tick [] [opW]
          (TickStep.insert [] opW rfl (by simp [opIds]) rfl)))
  · exact single_flight.2 [opW] [opW] (TickStep.skip [opW])
      ⟨opW, by simp, rfl⟩

/-- C6: for every resumed operation whose bridge_txhash is set (a truthy,
i.e. non-empty, stored hash), resumeOperation dispatches to the transaction
monitor with that hash and never to executeRebalancing, the only path that
invokes the bridge orchestrator (quote fetch, approval, submission). -/
theorem resume_with_txhash_monitors_only (op : RebalanceOperation)
    (s : String) (hset : op.bridge_txhash = some s) (hne : s ≠ "") :
    resumeOperation op = ResumeAction.monitorOnly s ∧
    resumeOperation op ≠ ResumeAction.execute := by
  have h1 : resumeOperation op = ResumeAction.monitorOnly s := by
    simp [resumeOperation, hset, hne]
  refine ⟨h1, ?_⟩
  rw [h1]
  intro hc
  exact ResumeAction.noConfusion hc

/-- Witness for C6: the stored row with hash "0xhash1" is dispatched to
monitoring only. -/
theorem resume_with_txhash_monitors_only_witness :
    resumeOperation opWithHash = ResumeAction.monitorOnly "0xhash1" ∧
    resumeOperation opWithHash ≠ ResumeAction.execute :=
  resume_with_txhash_monitors_only opWithHash "0xhash1" rfl (by decide)
